import Mathlib

/-!
# Verification of the OpenNN `IncrementalOrder` class

Shallow embedding of `src/opennn/incremental_order.cpp` (class
`OpenNN::IncrementalOrder`, namespace `OpenNN`).

Modelling conventions:
* `size_t` counters (orders, iterations, failure counts) are `Nat`; the one
  place where `size_t` wrap-around subtraction matters (`set_step`'s guard
  `new_step > maximum_order - minimum_order`) is modelled explicitly with
  `sizeSub`, reduction modulo `2 ^ 64`.
* `double` values (performances, times, tolerance) are `ℚ`; the loop only
  compares and subtracts them, so exact rationals model the comparisons.
* The external collaborators that are not part of this translation unit
  (the training strategy's `calculate_performances`, `get_parameters_order`,
  and the wall clock read by `time`/`difftime`) are abstracted as a `Script`
  of evaluator outputs: `calculate_performances` is scripted by call index
  and the order it is called with, `get_parameters_order` by order, and the
  elapsed time by iteration index.
* `std::cout` progress printing is modelled as a list of `Msg` values
  accumulated next to the state, so that the effect of the `display` flag is
  part of the model without touching the search state.
-/

namespace IncrementalOrder

/-- The stopping reasons of `IncrementalOrder::perform_order_selection`
(members of the `OrderSelectionAlgorithm` stopping-condition enumeration that
this method assigns). -/
inductive StoppingCondition where
  | MaximumTime
  | GeneralizationPerformanceGoal
  | MaximumIterations
  | MaximumGeneralizationFailures
  | AlgorithmFinished
deriving DecidableEq, Repr

/-- Modelled from the spec: the base class `OrderSelectionAlgorithm` (its
source is not among the provided files) owns an enumerated performance
calculation method, serialized as a stable identifier string by
`write_performance_calculation_method` and parsed back by
`set_performance_calculation_method`. -/
inductive PerformanceCalculationMethod where
  | Minimum
  | Maximum
  | Mean
deriving DecidableEq, Repr

/-- The configuration fields of an `IncrementalOrder` object: the members of
`IncrementalOrder` itself (`step`, `maximum_generalization_failures`) together
with the inherited `OrderSelectionAlgorithm` members that
`perform_order_selection`, `to_XML` and `from_XML` read and write. -/
structure Config where
  minimum_order : Nat
  maximum_order : Nat
  trials_number : Nat
  performance_calculation_method : PerformanceCalculationMethod
  step : Nat
  reserve_parameters_data : Bool
  reserve_performance_data : Bool
  reserve_generalization_performance_data : Bool
  reserve_minimal_parameters : Bool
  display : Bool
  generalization_performance_goal : ℚ
  maximum_iterations_number : Nat
  maximum_time : ℚ
  tolerance : ℚ
  maximum_generalization_failures : Nat
deriving DecidableEq, Repr

/-- The scripted outputs of the external collaborators during one run:
`calcPerf i ord` is the `(training, generalization)` pair returned by the
`i`-th call of `calculate_performances`, called with order `ord`;
`getParams ord` is the vector returned by `get_parameters_order(ord)`;
`elapsedAt i` is the `difftime` value measured in loop iteration `i`. -/
structure Script where
  calcPerf : Nat → Nat → ℚ × ℚ
  getParams : Nat → List ℚ
  elapsedAt : Nat → ℚ

/-- The part of the multilayer perceptron that `perform_order_selection`
reads (`get_inputs_number`, `get_outputs_number`) and writes
(`set(inputs, order, outputs)` and `set_parameters`). -/
structure Network where
  inputs_number : Nat
  order : Nat
  outputs_number : Nat
  parameters : List ℚ
deriving DecidableEq, Repr

/-- One progress message printed to `std::cout` when `display` is set. -/
inductive Msg where
  | performing
  | maximumTimeReached
  | generalizationPerformanceReached
  | maximumIterationsReached
  | maximumFailuresReached (failures : Nat)
  | algorithmFinished
  | iterationInfo (iteration orderValue : Nat)
      (trainingPerformance generalizationPerformance elapsedTime : ℚ)
  | optimalOrderReport (order : Nat)
deriving DecidableEq, Repr

/-- The local variables of `perform_order_selection` together with the fields
of the `IncrementalOrderResults` record that the loop fills in.
In the source, `optimal_order`, `optimum_parameters` and
`optimum_generalization_performance` are uninitialized locals; the first loop
iteration always assigns them (the `iterations == 0` disjunct short-circuits
before they are read), so the arbitrary initial values chosen in `initState`
are never observable. -/
structure LoopState where
  order : Nat
  iterations : Nat
  generalization_failures : Nat
  prev_generalization_performance : ℚ
  optimal_order : Nat
  optimum_parameters : List ℚ
  optimum_generalization_performance : ℚ
  elapsed_time : ℚ
  order_data : List Nat
  performance_data : List ℚ
  generalization_performance_data : List ℚ
  parameters_data : List (List ℚ)
  stopping_condition : Option StoppingCondition
  ended : Bool
deriving DecidableEq, Repr

/-- The stopping-criteria cascade of `perform_order_selection`
(`incremental_order.cpp`, the `if/else if` chain after the bookkeeping):
elapsed time, then generalization goal, then iteration cap, then failure cap,
then the order reaching `maximum_order`; `none` means the loop continues. -/
def stopDecision (cfg : Config) (elapsed cgp : ℚ) (iters fails order : Nat) :
    Option StoppingCondition :=
  if elapsed > cfg.maximum_time then some StoppingCondition.MaximumTime
  else if cgp < cfg.generalization_performance_goal then
    some StoppingCondition.GeneralizationPerformanceGoal
  else if iters > cfg.maximum_iterations_number then
    some StoppingCondition.MaximumIterations
  else if fails ≥ cfg.maximum_generalization_failures then
    some StoppingCondition.MaximumGeneralizationFailures
  else if order = cfg.maximum_order then some StoppingCondition.AlgorithmFinished
  else none

/-- One pass of the `while(!end)` loop body of `perform_order_selection`.
Each field of the produced state is the value the corresponding C++ variable
holds at the end of the pass:
* the histories are appended (gated by the reserve flags);
* `adopt` is the condition `iterations == 0 || (optimum > current &&
  fabs(optimum - current) > tolerance)` guarding the optimal-order update;
* otherwise the failure counter is incremented when
  `prev_generalization_performance < current_generalization_performance`;
* `prev` and `iterations` are updated, the stopping cascade runs, and the
  order advances to `min(maximum_order, order + step)` only if not ended. -/
def stepIter (cfg : Config) (scr : Script) (s : LoopState) : LoopState :=
  let perf := scr.calcPerf s.iterations s.order
  let current_training_performance := perf.1
  let current_generalization_performance := perf.2
  let elapsed_time := scr.elapsedAt s.iterations
  let adopt := s.iterations = 0 ∨
      (s.optimum_generalization_performance > current_generalization_performance ∧
       |s.optimum_generalization_performance - current_generalization_performance| >
         cfg.tolerance)
  let generalization_failures :=
      if ¬ adopt ∧
          s.prev_generalization_performance < current_generalization_performance then
        s.generalization_failures + 1
      else s.generalization_failures
  let iterations := s.iterations + 1
  let decision := stopDecision cfg elapsed_time current_generalization_performance
      iterations generalization_failures s.order
  let ended := if decision.isSome then true else s.ended
  { order := if ended then s.order else min cfg.maximum_order (s.order + cfg.step)
    iterations := iterations
    generalization_failures := generalization_failures
    prev_generalization_performance := current_generalization_performance
    optimal_order := if adopt then s.order else s.optimal_order
    optimum_parameters := if adopt then scr.getParams s.order else s.optimum_parameters
    optimum_generalization_performance :=
      if adopt then current_generalization_performance
      else s.optimum_generalization_performance
    elapsed_time := elapsed_time
    order_data := s.order_data ++ [s.order]
    performance_data :=
      if cfg.reserve_performance_data then
        s.performance_data ++ [current_training_performance]
      else s.performance_data
    generalization_performance_data :=
      if cfg.reserve_generalization_performance_data then
        s.generalization_performance_data ++ [current_generalization_performance]
      else s.generalization_performance_data
    parameters_data :=
      if cfg.reserve_parameters_data then s.parameters_data ++ [scr.getParams s.order]
      else s.parameters_data
    stopping_condition :=
      match decision with
      | some c => some c
      | none => s.stopping_condition
    ended := ended }

/-- The `std::cout` lines one pass of the loop body prints: the stopping
message of the criterion that fired (if any), then the per-iteration progress
block; everything is gated by the `display` flag. -/
def stepMsgs (cfg : Config) (scr : Script) (s : LoopState) : List Msg :=
  if ¬ cfg.display then []
  else
    let perf := scr.calcPerf s.iterations s.order
    let s' := stepIter cfg scr s
    (if s'.ended ∧ ¬ s.ended then
        match s'.stopping_condition with
        | some StoppingCondition.MaximumTime => [Msg.maximumTimeReached]
        | some StoppingCondition.GeneralizationPerformanceGoal =>
            [Msg.generalizationPerformanceReached]
        | some StoppingCondition.MaximumIterations => [Msg.maximumIterationsReached]
        | some StoppingCondition.MaximumGeneralizationFailures =>
            [Msg.maximumFailuresReached s'.generalization_failures]
        | some StoppingCondition.AlgorithmFinished => [Msg.algorithmFinished]
        | none => []
      else []) ++
    [Msg.iterationInfo s'.iterations s.order perf.1 perf.2 (scr.elapsedAt s.iterations)]

/-- The `while(!end)` loop, run with explicit fuel. The C++ loop always
terminates because `iterations` strictly increases and the
`iterations > maximum_iterations_number` criterion eventually fires;
`loopRun_ended` below proves that `maximum_iterations_number + 1` units of
fuel always reach a terminated state, so the fuel never runs out in
`perform_order_selection`. -/
def loopRun (cfg : Config) (scr : Script) : Nat → LoopState → LoopState × List Msg
  | 0, s => (s, [])
  | Nat.succ fuel, s =>
      let s' := stepIter cfg scr s
      let m := stepMsgs cfg scr s
      if s'.ended then (s', m)
      else
        let r := loopRun cfg scr fuel s'
        (r.1, m ++ r.2)

/-- The state of the local variables of `perform_order_selection` on entry
to the first loop iteration: `order = minimum_order`, counters zero,
`prev_generalization_performance = 1.0e99`, empty histories. -/
def initState (cfg : Config) : LoopState :=
  { order := cfg.minimum_order
    iterations := 0
    generalization_failures := 0
    prev_generalization_performance := (10 : ℚ) ^ 99
    optimal_order := 0
    optimum_parameters := []
    optimum_generalization_performance := 0
    elapsed_time := 0
    order_data := []
    performance_data := []
    generalization_performance_data := []
    parameters_data := []
    stopping_condition := none
    ended := false }

/-- The `IncrementalOrderResults` record returned by
`perform_order_selection`. `stopping_condition` is an `Option` because the
C++ field is only assigned when a criterion fires. -/
structure IncrementalOrderResults where
  order_data : List Nat
  performance_data : List ℚ
  generalization_performance_data : List ℚ
  parameters_data : List (List ℚ)
  minimal_parameters : List ℚ
  stopping_condition : Option StoppingCondition
  optimal_order : Nat
  final_performance : ℚ
  final_generalization_performance : ℚ
  iterations_number : Nat
  elapsed_time : ℚ
deriving DecidableEq, Repr

/-- `IncrementalOrder::perform_order_selection`: run the loop, then install
the optimal order and the stored optimum parameters into the network and fill
the terminal result fields (`final_performance` re-evaluates at the optimal
order, which is one more scripted evaluator call). Returns the results
record, the updated network, and the printed progress messages. -/
def perform_order_selection (cfg : Config) (scr : Script) (net : Network) :
    IncrementalOrderResults × Network × List Msg :=
  let run := loopRun cfg scr (cfg.maximum_iterations_number + 1) (initState cfg)
  let s := run.1
  let results : IncrementalOrderResults :=
    { order_data := s.order_data
      performance_data := s.performance_data
      generalization_performance_data := s.generalization_performance_data
      parameters_data := s.parameters_data
      minimal_parameters :=
        if cfg.reserve_minimal_parameters then s.optimum_parameters else []
      stopping_condition := s.stopping_condition
      optimal_order := s.optimal_order
      final_performance := (scr.calcPerf s.iterations s.optimal_order).1
      final_generalization_performance := s.optimum_generalization_performance
      iterations_number := s.iterations
      elapsed_time := s.elapsed_time }
  let net' : Network :=
    { inputs_number := net.inputs_number
      order := s.optimal_order
      outputs_number := net.outputs_number
      parameters := s.optimum_parameters }
  let msgs :=
    (if cfg.display then [Msg.performing] else []) ++ run.2 ++
      (if cfg.display then [Msg.optimalOrderReport s.optimal_order] else [])
  (results, net', msgs)

/-! ## Setters, serialization and loading -/

/-- `size_t` subtraction as it appears in `set_step`'s guard
`new_step > (maximum_order - minimum_order)`: unsigned subtraction wraps
modulo `2 ^ 64`. -/
def sizeSub (a b : Nat) : Nat := (a + 2 ^ 64 - b) % 2 ^ 64

/-- `IncrementalOrder::set_step`. The validation block of the source (a
`new_step` of zero, or larger than `maximum_order - minimum_order`, throws a
`std::logic_error`) is compiled under the `__OPENNN_DEBUG__` flag; it is part
of the source and is modelled here. An error leaves the object unchanged
(the C++ method throws before assigning). -/
def set_step (new_step : Nat) (c : Config) : Except String Config :=
  if new_step = 0 then
    Except.error "New_step must be greater than 0."
  else if new_step > sizeSub c.maximum_order c.minimum_order then
    Except.error "New_step must be less than the distance between maximum_order and minimum_order."
  else Except.ok { c with step := new_step }

/-- `IncrementalOrder::set_maximum_generalization_failures`: a zero threshold
throws a `std::logic_error` (validation compiled under `__OPENNN_DEBUG__`),
otherwise the value is stored. -/
def set_maximum_generalization_failures (n : Nat) (c : Config) :
    Except String Config :=
  if n = 0 then
    Except.error "Maximum generalization failures must be greater than 0."
  else Except.ok { c with maximum_generalization_failures := n }

/-- `IncrementalOrder::set_default`: sets `step = 1` and
`maximum_generalization_failures = 3`. It does not touch any inherited
`OrderSelectionAlgorithm` field. -/
def set_default (c : Config) : Config :=
  { c with step := 1, maximum_generalization_failures := 3 }

/-- Modelled from the spec: base-class setter `set_trials_number`
(`OrderSelectionAlgorithm`, source not provided); stores the value. -/
def set_trials_number (n : Nat) (c : Config) : Config := { c with trials_number := n }

/-- Modelled from the spec: base-class
`write_performance_calculation_method` serializes the method as its
identifier string. -/
def write_performance_calculation_method (c : Config) : String :=
  match c.performance_calculation_method with
  | PerformanceCalculationMethod.Minimum => "Minimum"
  | PerformanceCalculationMethod.Maximum => "Maximum"
  | PerformanceCalculationMethod.Mean => "Mean"

/-- Modelled from the spec: base-class
`set_performance_calculation_method(string)` parses the identifier and throws
on an unrecognized name. -/
def set_performance_calculation_method (txt : String) (c : Config) :
    Except String Config :=
  if txt = "Minimum" then
    Except.ok { c with performance_calculation_method := PerformanceCalculationMethod.Minimum }
  else if txt = "Maximum" then
    Except.ok { c with performance_calculation_method := PerformanceCalculationMethod.Maximum }
  else if txt = "Mean" then
    Except.ok { c with performance_calculation_method := PerformanceCalculationMethod.Mean }
  else Except.error "Unknown performance calculation method."

/-- Modelled from the spec: base-class setter for the parameters-data reserve
flag; stores the value. -/
def set_reserve_parameters_data (b : Bool) (c : Config) : Config :=
  { c with reserve_parameters_data := b }

/-- Modelled from the spec: base-class setter for the performance-data
reserve flag; stores the value. -/
def set_reserve_performance_data (b : Bool) (c : Config) : Config :=
  { c with reserve_performance_data := b }

/-- Modelled from the spec: base-class setter for the
generalization-performance-data reserve flag; stores the value. -/
def set_reserve_generalization_performance_data (b : Bool) (c : Config) : Config :=
  { c with reserve_generalization_performance_data := b }

/-- Modelled from the spec: base-class setter for the minimal-parameters
reserve flag; stores the value. -/
def set_reserve_minimal_parameters (b : Bool) (c : Config) : Config :=
  { c with reserve_minimal_parameters := b }

/-- Modelled from the spec: base-class setter for the display flag; stores
the value. -/
def set_display (b : Bool) (c : Config) : Config := { c with display := b }

/-- Modelled from the spec: base-class setter for the generalization
performance goal; stores the value. -/
def set_generalization_performance_goal (q : ℚ) (c : Config) : Config :=
  { c with generalization_performance_goal := q }

/-- Modelled from the spec: base-class setter for the iteration cap; stores
the value. -/
def set_maximum_iterations_number (n : Nat) (c : Config) : Config :=
  { c with maximum_iterations_number := n }

/-- Modelled from the spec: base-class setter for the time budget; stores
the value. -/
def set_maximum_time (q : ℚ) (c : Config) : Config := { c with maximum_time := q }

/-- Modelled from the spec: base-class setter for the tolerance; stores the
value. -/
def set_tolerance (q : ℚ) (c : Config) : Config := { c with tolerance := q }

/-- `atoi` applied to the decimal text of a (possibly fractional) value:
it reads the leading integer part, i.e. truncates toward zero. Used to model
`from_XML`'s `atoi(element->GetText())` on the `MaximumTime` element, whose
text `to_XML` produced from a `double`. -/
def ratTrunc (q : ℚ) : ℤ := q.num.tdiv q.den

/-- The TinyXML document exchanged by `to_XML`/`from_XML`, one optional entry
per recognized child element of the `IncrementalOrder` root. Element text is
modelled at the type the reader parses it to: `atoi`-parsed elements carry the
`Nat` their decimal text denotes, `atof`-parsed elements carry the exact
rational their decimal text denotes, and elements compared as strings
(the boolean flags, the method name) carry their raw text. The `MaximumTime`
element carries the rational its decimal text denotes; `from_XML` reads it
with `atoi`, i.e. `ratTrunc`. `root = false` models a document without an
`IncrementalOrder` root element. -/
structure IODocument where
  root : Bool
  minimumOrder : Option Nat
  maximumOrder : Option Nat
  trialsNumber : Option Nat
  performanceCalculationMethod : Option String
  stepElement : Option Nat
  reserveParametersData : Option String
  reservePerformanceData : Option String
  reserveGeneralizationPerformanceData : Option String
  reserveMinimalParameters : Option String
  displayElement : Option String
  generalizationPerformanceGoal : Option ℚ
  maximumIterationsNumber : Option Nat
  maximumTime : Option ℚ
  tolerance : Option ℚ
  maximumGeneralizationFailures : Option Nat
deriving DecidableEq, Repr

/-- The text `buffer << bool` writes: `"1"` for true, `"0"` for false. -/
def boolText (b : Bool) : String := if b then "1" else "0"

/-- `IncrementalOrder::to_XML`: one child element per configuration field
under the `IncrementalOrder` root, in source order; numbers in decimal,
booleans as `"0"`/`"1"`, the method as its identifier string. -/
def to_XML (c : Config) : IODocument :=
  { root := true
    minimumOrder := some c.minimum_order
    maximumOrder := some c.maximum_order
    trialsNumber := some c.trials_number
    performanceCalculationMethod := some (write_performance_calculation_method c)
    stepElement := some c.step
    reserveParametersData := some (boolText c.reserve_parameters_data)
    reservePerformanceData := some (boolText c.reserve_performance_data)
    reserveGeneralizationPerformanceData :=
      some (boolText c.reserve_generalization_performance_data)
    reserveMinimalParameters := some (boolText c.reserve_minimal_parameters)
    displayElement := some (boolText c.display)
    generalizationPerformanceGoal := some c.generalization_performance_goal
    maximumIterationsNumber := some c.maximum_iterations_number
    maximumTime := some c.maximum_time
    tolerance := some c.tolerance
    maximumGeneralizationFailures := some c.maximum_generalization_failures }

/-- `from_XML`, `MinimumOrder` block: if present, `atoi` the text and assign
the member directly (no setter; the `try` block cannot throw). -/
def applyMinimumOrder (doc : IODocument) (c : Config) : Config :=
  match doc.minimumOrder with
  | none => c
  | some v => { c with minimum_order := v }

/-- `from_XML`, `MaximumOrder` block: direct member assignment. -/
def applyMaximumOrder (doc : IODocument) (c : Config) : Config :=
  match doc.maximumOrder with
  | none => c
  | some v => { c with maximum_order := v }

/-- `from_XML`, `TrialsNumber` block: `set_trials_number`, failures caught
and logged. -/
def applyTrialsNumber (doc : IODocument) (c : Config) : Config :=
  match doc.trialsNumber with
  | none => c
  | some v => set_trials_number v c

/-- `from_XML`, `PerformanceCalculationMethod` block:
`set_performance_calculation_method`, a thrown error is caught and logged,
leaving the field unchanged. -/
def applyPerformanceCalculationMethod (doc : IODocument) (c : Config) : Config :=
  match doc.performanceCalculationMethod with
  | none => c
  | some txt =>
      match set_performance_calculation_method txt c with
      | Except.ok c' => c'
      | Except.error _ => c

/-- `from_XML`, `Step` block: `set_step`, a thrown error is caught and
logged, leaving the field unchanged. Note this runs after the
`MinimumOrder`/`MaximumOrder` blocks, so the guard uses the updated bounds. -/
def applyStep (doc : IODocument) (c : Config) : Config :=
  match doc.stepElement with
  | none => c
  | some v =>
      match set_step v c with
      | Except.ok c' => c'
      | Except.error _ => c

/-- `from_XML`, `ReserveParametersData` block: the text compared against
`"0"`. -/
def applyReserveParametersData (doc : IODocument) (c : Config) : Config :=
  match doc.reserveParametersData with
  | none => c
  | some txt => set_reserve_parameters_data (txt ≠ "0") c

/-- `from_XML`, `ReservePerformanceData` block. -/
def applyReservePerformanceData (doc : IODocument) (c : Config) : Config :=
  match doc.reservePerformanceData with
  | none => c
  | some txt => set_reserve_performance_data (txt ≠ "0") c

/-- `from_XML`, `ReserveGeneralizationPerformanceData` block. -/
def applyReserveGeneralizationPerformanceData (doc : IODocument) (c : Config) :
    Config :=
  match doc.reserveGeneralizationPerformanceData with
  | none => c
  | some txt => set_reserve_generalization_performance_data (txt ≠ "0") c

/-- `from_XML`, `ReserveMinimalParameters` block. -/
def applyReserveMinimalParameters (doc : IODocument) (c : Config) : Config :=
  match doc.reserveMinimalParameters with
  | none => c
  | some txt => set_reserve_minimal_parameters (txt ≠ "0") c

/-- `from_XML`, `Display` block. -/
def applyDisplay (doc : IODocument) (c : Config) : Config :=
  match doc.displayElement with
  | none => c
  | some txt => set_display (txt ≠ "0") c

/-- `from_XML`, `GeneralizationPerformanceGoal` block: `atof` the text. -/
def applyGeneralizationPerformanceGoal (doc : IODocument) (c : Config) : Config :=
  match doc.generalizationPerformanceGoal with
  | none => c
  | some q => set_generalization_performance_goal q c

/-- `from_XML`, `MaximumIterationsNumber` block: `atoi` the text. -/
def applyMaximumIterationsNumber (doc : IODocument) (c : Config) : Config :=
  match doc.maximumIterationsNumber with
  | none => c
  | some v => set_maximum_iterations_number v c

/-- `from_XML`, `MaximumTime` block: the source reads this `double` field
with `atoi` (`const double new_maximum_time = atoi(element->GetText());`),
so the stored value is the truncated integer part of the element's text. -/
def applyMaximumTime (doc : IODocument) (c : Config) : Config :=
  match doc.maximumTime with
  | none => c
  | some q => set_maximum_time ((ratTrunc q : ℤ) : ℚ) c

/-- `from_XML`, `Tolerance` block: `atof` the text. -/
def applyTolerance (doc : IODocument) (c : Config) : Config :=
  match doc.tolerance with
  | none => c
  | some q => set_tolerance q c

/-- `from_XML`, `MaximumGeneralizationFailures` block:
`set_maximum_generalization_failures`, a thrown error is caught and logged,
leaving the field unchanged. -/
def applyMaximumGeneralizationFailures (doc : IODocument) (c : Config) : Config :=
  match doc.maximumGeneralizationFailures with
  | none => c
  | some v =>
      match set_maximum_generalization_failures v c with
      | Except.ok c' => c'
      | Except.error _ => c

/-- The body of `from_XML` after the root check: the fifteen per-element
blocks applied in source order. -/
def fromXMLcore (doc : IODocument) (c : Config) : Config :=
  applyMaximumGeneralizationFailures doc
    (applyTolerance doc
      (applyMaximumTime doc
        (applyMaximumIterationsNumber doc
          (applyGeneralizationPerformanceGoal doc
            (applyDisplay doc
              (applyReserveMinimalParameters doc
                (applyReserveGeneralizationPerformanceData doc
                  (applyReservePerformanceData doc
                    (applyReserveParametersData doc
                      (applyStep doc
                        (applyPerformanceCalculationMethod doc
                          (applyTrialsNumber doc
                            (applyMaximumOrder doc
                              (applyMinimumOrder doc c))))))))))))))

/-- `IncrementalOrder::from_XML`: a document without an `IncrementalOrder`
root element throws a `std::logic_error` before any member is touched;
otherwise the fifteen element blocks run in order, each skipped when its
element is missing. -/
def from_XML (doc : IODocument) (c : Config) : Except String Config :=
  if doc.root then Except.ok (fromXMLcore doc c)
  else Except.error "IncrementalOrder element is NULL."

/-- `IncrementalOrder::load`: calls `set_default()` first, then parses the
file; an unloadable file throws with the object already reset by
`set_default`, and a loadable file is handed to `from_XML` (which throws,
with the same object state, when the root element is absent). The `error`
payload is the object state at the moment the exception leaves `load`. -/
def load (file : Option IODocument) (c : Config) : Except Config Config :=
  let c1 := set_default c
  match file with
  | none => Except.error c1
  | some doc =>
      match from_XML doc c1 with
      | Except.error _ => Except.error c1
      | Except.ok c2 => Except.ok c2

/-! ## Basic facts about one loop pass -/

/-- The condition associated with each stopping reason, in terms of the
metrics available when the cascade runs: the elapsed time and current
generalization performance measured this iteration, the incremented
iteration counter, the updated failure counter, and the (not yet advanced)
order. -/
def condHolds (cfg : Config) (elapsed cgp : ℚ) (iters fails order : Nat) :
    StoppingCondition → Prop
  | StoppingCondition.MaximumTime => elapsed > cfg.maximum_time
  | StoppingCondition.GeneralizationPerformanceGoal =>
      cgp < cfg.generalization_performance_goal
  | StoppingCondition.MaximumIterations => iters > cfg.maximum_iterations_number
  | StoppingCondition.MaximumGeneralizationFailures =>
      fails ≥ cfg.maximum_generalization_failures
  | StoppingCondition.AlgorithmFinished => order = cfg.maximum_order

/-- Position of each stopping reason in the `if/else if` cascade of the
source (0 is checked first). -/
def priorityRank : StoppingCondition → Nat
  | StoppingCondition.MaximumTime => 0
  | StoppingCondition.GeneralizationPerformanceGoal => 1
  | StoppingCondition.MaximumIterations => 2
  | StoppingCondition.MaximumGeneralizationFailures => 3
  | StoppingCondition.AlgorithmFinished => 4

theorem stopDecision_some {cfg : Config} {e g : ℚ} {i f o : Nat}
    {c : StoppingCondition} (h : stopDecision cfg e g i f o = some c) :
    condHolds cfg e g i f o c ∧
      ∀ c', priorityRank c' < priorityRank c → ¬ condHolds cfg e g i f o c' := by
  unfold stopDecision at h
  split_ifs at h with h1 h2 h3 h4 h5 <;> injection h with h <;> subst h
  · exact ⟨h1, fun c' hc' => by cases c' <;> simp [priorityRank] at hc'⟩
  · refine ⟨h2, fun c' hc' => ?_⟩
    cases c' <;> simp [priorityRank] at hc' <;> simp [condHolds]
    exact not_lt.mp h1
  · refine ⟨h3, fun c' hc' => ?_⟩
    cases c' <;> simp [priorityRank] at hc' <;> simp [condHolds]
    · exact not_lt.mp h1
    · exact not_lt.mp h2
  · refine ⟨h4, fun c' hc' => ?_⟩
    cases c' <;> simp [priorityRank] at hc' <;> simp [condHolds]
    · exact not_lt.mp h1
    · exact not_lt.mp h2
    · exact not_lt.mp h3
  · refine ⟨h5, fun c' hc' => ?_⟩
    cases c' <;> simp [priorityRank] at hc' <;> simp [condHolds]
    · exact not_lt.mp h1
    · exact not_lt.mp h2
    · exact not_lt.mp h3
    · exact not_le.mp h4

theorem stopDecision_none {cfg : Config} {e g : ℚ} {i f o : Nat}
    (h : stopDecision cfg e g i f o = none) :
    ∀ c, ¬ condHolds cfg e g i f o c := by
  unfold stopDecision at h
  intro c hc
  split_ifs at h with h1 h2 h3 h4 h5 <;>
    first
      | exact Option.noConfusion h
      | (cases c <;> simp only [condHolds] at hc <;>
          first
            | exact h1 hc
            | exact h2 hc
            | exact h3 hc
            | exact h4 hc
            | exact h5 hc)

theorem stepIter_iterations (cfg : Config) (scr : Script) (s : LoopState) :
    (stepIter cfg scr s).iterations = s.iterations + 1 := rfl

theorem stepIter_order_data (cfg : Config) (scr : Script) (s : LoopState) :
    (stepIter cfg scr s).order_data = s.order_data ++ [s.order] := rfl

theorem stepIter_stopping (cfg : Config) (scr : Script) (s : LoopState) :
    (stepIter cfg scr s).stopping_condition =
      (match stopDecision cfg (scr.elapsedAt s.iterations)
          ((scr.calcPerf s.iterations s.order).2) (s.iterations + 1)
          ((stepIter cfg scr s).generalization_failures) s.order with
        | some c => some c
        | none => s.stopping_condition) := rfl

theorem stepIter_ended (cfg : Config) (scr : Script) (s : LoopState) :
    (stepIter cfg scr s).ended =
      (if (stopDecision cfg (scr.elapsedAt s.iterations)
          ((scr.calcPerf s.iterations s.order).2) (s.iterations + 1)
          ((stepIter cfg scr s).generalization_failures) s.order).isSome
       then true else s.ended) := rfl

theorem stepIter_order (cfg : Config) (scr : Script) (s : LoopState) :
    (stepIter cfg scr s).order =
      (if (stepIter cfg scr s).ended then s.order
       else min cfg.maximum_order (s.order + cfg.step)) := rfl

/-- A pass that terminates the loop records a stopping reason. -/
theorem stepIter_ended_isSome {cfg : Config} {scr : Script} {s : LoopState}
    (h : s.ended = false) (hE : (stepIter cfg scr s).ended = true) :
    ((stepIter cfg scr s).stopping_condition).isSome = true := by
  rw [stepIter_ended, h] at hE
  rw [stepIter_stopping]
  rcases hd : stopDecision cfg (scr.elapsedAt s.iterations)
      ((scr.calcPerf s.iterations s.order).2) (s.iterations + 1)
      ((stepIter cfg scr s).generalization_failures) s.order with _ | c
  · rw [hd] at hE; simp at hE
  · simp

/-- A pass that does not terminate the loop leaves the iteration counter
within the iteration cap (otherwise the `MaximumIterations` criterion, or an
earlier one, would have fired). -/
theorem stepIter_not_ended_iterations {cfg : Config} {scr : Script}
    {s : LoopState} (h : s.ended = false)
    (hE : (stepIter cfg scr s).ended = false) :
    s.iterations + 1 ≤ cfg.maximum_iterations_number := by
  rw [stepIter_ended, h] at hE
  rcases hd : stopDecision cfg (scr.elapsedAt s.iterations)
      ((scr.calcPerf s.iterations s.order).2) (s.iterations + 1)
      ((stepIter cfg scr s).generalization_failures) s.order with _ | c
  · have := stopDecision_none hd StoppingCondition.MaximumIterations
    simpa [condHolds] using this
  · rw [hd] at hE; simp at hE

/-- With fuel at least `maximum_iterations_number + 1 - iterations`, the loop
always reaches a terminated state carrying a stopping reason: the C++
`while(!end)` loop terminates, at the latest through the iteration cap. -/
theorem loopRun_ended (cfg : Config) (scr : Script) :
    ∀ fuel s, s.ended = false →
      cfg.maximum_iterations_number + 1 ≤ fuel + s.iterations → 1 ≤ fuel →
      (loopRun cfg scr fuel s).1.ended = true ∧
        ((loopRun cfg scr fuel s).1.stopping_condition).isSome = true := by
  intro fuel
  induction fuel with
  | zero => intro s _ _ hfuel; exact absurd hfuel (by omega)
  | succ fuel ih =>
      intro s hs hM _
      by_cases hE : (stepIter cfg scr s).ended = true
      · simp only [loopRun, hE, if_pos]
        exact ⟨by simp [hE], stepIter_ended_isSome hs hE⟩
      · have hE' : (stepIter cfg scr s).ended = false := by
          revert hE; cases (stepIter cfg scr s).ended <;> simp
        have hiter := stepIter_not_ended_iterations hs hE'
        simp only [loopRun, hE', if_neg, Bool.false_eq_true, not_false_iff]
        exact ih (stepIter cfg scr s) hE'
          (by rw [stepIter_iterations]; omega) (by omega)

/-! ## Claims about the search loop -/

/-- C1: in every loop pass the stopping cascade records the first condition
that holds — a recorded reason holds and every higher-priority condition
fails, and when no reason is recorded no condition holds — and every run of
`perform_order_selection` records exactly one stopping reason in the results
record. -/
theorem c1_stopping_priority (cfg : Config) (scr : Script) (s : LoopState)
    (h1 : s.ended = false) (h2 : s.stopping_condition = none) :
    (∀ c, (stepIter cfg scr s).stopping_condition = some c →
        condHolds cfg (scr.elapsedAt s.iterations)
          ((scr.calcPerf s.iterations s.order).2) (s.iterations + 1)
          ((stepIter cfg scr s).generalization_failures) s.order c ∧
        ∀ c', priorityRank c' < priorityRank c →
          ¬ condHolds cfg (scr.elapsedAt s.iterations)
            ((scr.calcPerf s.iterations s.order).2) (s.iterations + 1)
            ((stepIter cfg scr s).generalization_failures) s.order c') ∧
    ((stepIter cfg scr s).stopping_condition = none →
        ∀ c, ¬ condHolds cfg (scr.elapsedAt s.iterations)
          ((scr.calcPerf s.iterations s.order).2) (s.iterations + 1)
          ((stepIter cfg scr s).generalization_failures) s.order c) ∧
    (∀ net, ((perform_order_selection cfg scr net).1.stopping_condition).isSome
        = true) := by
  refine ⟨fun c hc => ?_, fun hn => ?_, fun net => ?_⟩
  · rw [stepIter_stopping] at hc
    rcases hd : stopDecision cfg (scr.elapsedAt s.iterations)
        ((scr.calcPerf s.iterations s.order).2) (s.iterations + 1)
        ((stepIter cfg scr s).generalization_failures) s.order with _ | c₀
    · rw [hd] at hc
      simp only [h2] at hc
      exact Option.noConfusion hc
    · rw [hd] at hc
      simp only [Option.some.injEq] at hc
      subst hc
      exact stopDecision_some hd
  · rw [stepIter_stopping] at hn
    rcases hd : stopDecision cfg (scr.elapsedAt s.iterations)
        ((scr.calcPerf s.iterations s.order).2) (s.iterations + 1)
        ((stepIter cfg scr s).generalization_failures) s.order with _ | c₀
    · exact stopDecision_none hd
    · rw [hd] at hn; exact Option.noConfusion hn
  · have := (loopRun_ended cfg scr (cfg.maximum_iterations_number + 1)
      (initState cfg) rfl (by omega) (by omega)).2
    exact this

/-- C2: an iteration adopts the current order as optimal exactly when it is
the first iteration, or the current generalization performance is strictly
below the stored optimum with absolute difference above `tolerance`; on
adoption the optimum order, performance and parameters become the current
order's values, and otherwise all three are unchanged. -/
theorem c2_optimal_adoption (cfg : Config) (scr : Script) (s : LoopState) :
    ((s.iterations = 0 ∨
        (s.optimum_generalization_performance >
            (scr.calcPerf s.iterations s.order).2 ∧
         |s.optimum_generalization_performance -
            (scr.calcPerf s.iterations s.order).2| > cfg.tolerance)) →
      (stepIter cfg scr s).optimal_order = s.order ∧
      (stepIter cfg scr s).optimum_generalization_performance =
        (scr.calcPerf s.iterations s.order).2 ∧
      (stepIter cfg scr s).optimum_parameters = scr.getParams s.order) ∧
    (¬ (s.iterations = 0 ∨
        (s.optimum_generalization_performance >
            (scr.calcPerf s.iterations s.order).2 ∧
         |s.optimum_generalization_performance -
            (scr.calcPerf s.iterations s.order).2| > cfg.tolerance)) →
      (stepIter cfg scr s).optimal_order = s.optimal_order ∧
      (stepIter cfg scr s).optimum_generalization_performance =
        s.optimum_generalization_performance ∧
      (stepIter cfg scr s).optimum_parameters = s.optimum_parameters) := by
  constructor <;> intro h <;>
    exact ⟨by simp [stepIter, h], by simp [stepIter, h], by simp [stepIter, h]⟩

/-- C3: on an iteration that does not adopt a new optimum, the failure
counter is incremented exactly when the previous iteration's generalization
performance was strictly below the current one (a bare comparison against the
previous value, with no tolerance band); an adopting iteration never
increments it. -/
theorem c3_failure_counter (cfg : Config) (scr : Script) (s : LoopState) :
    ((s.iterations = 0 ∨
        (s.optimum_generalization_performance >
            (scr.calcPerf s.iterations s.order).2 ∧
         |s.optimum_generalization_performance -
            (scr.calcPerf s.iterations s.order).2| > cfg.tolerance)) →
      (stepIter cfg scr s).generalization_failures = s.generalization_failures) ∧
    (¬ (s.iterations = 0 ∨
        (s.optimum_generalization_performance >
            (scr.calcPerf s.iterations s.order).2 ∧
         |s.optimum_generalization_performance -
            (scr.calcPerf s.iterations s.order).2| > cfg.tolerance)) →
      (stepIter cfg scr s).generalization_failures =
        (if s.prev_generalization_performance <
            (scr.calcPerf s.iterations s.order).2 then
          s.generalization_failures + 1
        else s.generalization_failures)) := by
  constructor <;> intro h <;> simp [stepIter, h]

/-! ## Sample configurations used to instantiate theorems with hypotheses -/

/-- A well-formed sample configuration (orders 1 to 5, step 2). -/
def sampleCfg : Config :=
  { minimum_order := 1
    maximum_order := 5
    trials_number := 1
    performance_calculation_method := PerformanceCalculationMethod.Minimum
    step := 2
    reserve_parameters_data := false
    reserve_performance_data := false
    reserve_generalization_performance_data := false
    reserve_minimal_parameters := false
    display := false
    generalization_performance_goal := -1
    maximum_iterations_number := 10
    maximum_time := 100
    tolerance := 0
    maximum_generalization_failures := 3 }

/-- A sample evaluator script: generalization performances
`9, 5, 6, 4` on successive calls (the shape of the scenario in the spec's
testable-properties section). -/
def sampleScr : Script :=
  { calcPerf := fun i _ =>
      (0, if i = 0 then 9 else if i = 1 then 5 else if i = 2 then 6 else 4)
    getParams := fun ord => [(ord : ℚ)]
    elapsedAt := fun _ => 0 }

/-- A constant-output evaluator script. -/
def flatScr : Script :=
  { calcPerf := fun _ _ => (0, 7)
    getParams := fun _ => []
    elapsedAt := fun _ => 0 }

/-- A sample two-input one-output network. -/
def sampleNet : Network :=
  { inputs_number := 2, order := 1, outputs_number := 1, parameters := [] }

/-- An ill-formed configuration whose `minimum_order` exceeds
`maximum_order`. -/
def c4cexCfg : Config := { sampleCfg with minimum_order := 5, maximum_order := 3, step := 1 }

/-- A mid-run loop state with no improvement over the stored optimum and no
degradation over the previous value. -/
def c3state : LoopState :=
  { order := 3
    iterations := 1
    generalization_failures := 0
    prev_generalization_performance := 5
    optimal_order := 1
    optimum_parameters := [1]
    optimum_generalization_performance := 5
    elapsed_time := 0
    order_data := [1]
    performance_data := []
    generalization_performance_data := []
    parameters_data := []
    stopping_condition := none
    ended := false }

/-- Witness for C1 at the sample inputs: the run records a stopping reason. -/
theorem c1_witness :
    ((perform_order_selection sampleCfg sampleScr sampleNet).1.stopping_condition).isSome
      = true :=
  (c1_stopping_priority sampleCfg sampleScr (initState sampleCfg) rfl rfl).2.2 sampleNet

/-- Witness for C2: the first iteration adopts the initial order. -/
theorem c2_witness :
    (stepIter sampleCfg sampleScr (initState sampleCfg)).optimal_order
        = (initState sampleCfg).order ∧
    (stepIter sampleCfg sampleScr (initState sampleCfg)).optimum_generalization_performance
        = (sampleScr.calcPerf (initState sampleCfg).iterations (initState sampleCfg).order).2 ∧
    (stepIter sampleCfg sampleScr (initState sampleCfg)).optimum_parameters
        = sampleScr.getParams (initState sampleCfg).order :=
  (c2_optimal_adoption sampleCfg sampleScr (initState sampleCfg)).1 (Or.inl rfl)

/-- Witness for C3: a non-adopting iteration updates the failure counter by
the previous-versus-current comparison. -/
theorem c3_witness :
    (stepIter sampleCfg flatScr c3state).generalization_failures =
      (if c3state.prev_generalization_performance <
          (flatScr.calcPerf c3state.iterations c3state.order).2 then
        c3state.generalization_failures + 1
      else c3state.generalization_failures) :=
  (c3_failure_counter sampleCfg flatScr c3state).2 (by decide)

/-! ## The order sequence (C4) -/

theorem head?_append_some {α : Type} {L L' : List α} {x : α}
    (h : L.head? = some x) : (L ++ L').head? = some x := by
  cases L with
  | nil => simp at h
  | cons a t => simpa using h

theorem chain'_snoc {α : Type} {R : α → α → Prop} {L : List α} {a b : α}
    (h : List.Chain' R (L ++ [a])) (hab : R a b) :
    List.Chain' R ((L ++ [a]) ++ [b]) := by
  refine h.append (List.chain'_singleton b) ?_
  intro x hx y hy
  rw [List.getLast?_concat] at hx
  simp only [List.head?_cons, Option.mem_def, Option.some.injEq] at hx hy
  subst hx; subst hy
  exact hab

/-- Loop invariant for the order sequence: starting from a state whose
evaluated orders form a `min (maximum_order) (· + step)` chain headed by
`minimum_order` and bounded by `maximum_order`, a terminating run preserves
all three facts about the recorded `order_data`. -/
theorem c4_loop (cfg : Config) (scr : Script) :
    ∀ fuel s, s.ended = false →
      s.order ≤ cfg.maximum_order →
      (s.order_data ++ [s.order]).head? = some cfg.minimum_order →
      List.Chain' (fun a b => b = min cfg.maximum_order (a + cfg.step) ∧ a ≤ b)
        (s.order_data ++ [s.order]) →
      (∀ x ∈ s.order_data, x ≤ cfg.maximum_order) →
      (loopRun cfg scr fuel s).1.ended = true →
      ((loopRun cfg scr fuel s).1.order_data.head? = some cfg.minimum_order ∧
       List.Chain' (fun a b => b = min cfg.maximum_order (a + cfg.step) ∧ a ≤ b)
         (loopRun cfg scr fuel s).1.order_data ∧
       ∀ x ∈ (loopRun cfg scr fuel s).1.order_data, x ≤ cfg.maximum_order) := by
  intro fuel
  induction fuel with
  | zero =>
      intro s hs _ _ _ _ hE
      rw [show (loopRun cfg scr 0 s).1 = s from rfl, hs] at hE
      exact Bool.noConfusion hE
  | succ fuel ih =>
      intro s hs horder hhead hchain hbound hE
      by_cases hE' : (stepIter cfg scr s).ended = true
      · have hres : (loopRun cfg scr (fuel + 1) s).1 = stepIter cfg scr s := by
          simp only [loopRun, hE', if_pos]
        rw [hres, stepIter_order_data]
        refine ⟨hhead, hchain, ?_⟩
        intro x hx
        rcases List.mem_append.mp hx with hx | hx
        · exact hbound x hx
        · simp only [List.mem_singleton] at hx; subst hx; exact horder
      · have hE'' : (stepIter cfg scr s).ended = false := by
          revert hE'; cases (stepIter cfg scr s).ended <;> simp

        have hres : (loopRun cfg scr (fuel + 1) s).1
            = (loopRun cfg scr fuel (stepIter cfg scr s)).1 := by
          simp [loopRun, hE'']
        rw [hres] at hE ⊢
        have hordernew : (stepIter cfg scr s).order
            = min cfg.maximum_order (s.order + cfg.step) := by
          rw [stepIter_order, hE'']; simp
        refine ih (stepIter cfg scr s) hE'' ?_ ?_ ?_ ?_ hE
        · rw [hordernew]; exact min_le_left _ _
        · rw [stepIter_order_data]
          exact head?_append_some hhead
        · rw [stepIter_order_data, hordernew]
          exact chain'_snoc hchain ⟨rfl, le_min horder (Nat.le_add_right _ _)⟩
        · rw [stepIter_order_data]
          intro x hx
          rcases List.mem_append.mp hx with hx | hx
          · exact hbound x hx
          · simp only [List.mem_singleton] at hx; subst hx; exact horder

/-- C4 counterexample: with `minimum_order = 5 > 3 = maximum_order` the
evaluated order sequence is `[5, 3]` — it exceeds `maximum_order` and is not
non-decreasing, refuting the claim as stated for arbitrary configurations. -/
theorem c4_counterexample :
    ¬ ((∀ x ∈ (perform_order_selection c4cexCfg flatScr sampleNet).1.order_data,
          x ≤ c4cexCfg.maximum_order) ∧
       List.Chain' (fun a b => a ≤ b)
         (perform_order_selection c4cexCfg flatScr sampleNet).1.order_data) := by
  decide

/-- C4 (amended with `minimum_order ≤ maximum_order`): the evaluated order
sequence starts at `minimum_order`, each successive order is
`min maximum_order (order + step)`, the sequence is non-decreasing, and it
never exceeds `maximum_order`. -/
theorem c4_order_sequence (cfg : Config) (scr : Script) (net : Network)
    (h : cfg.minimum_order ≤ cfg.maximum_order) :
    (perform_order_selection cfg scr net).1.order_data.head?
        = some cfg.minimum_order ∧
    List.Chain' (fun a b => b = min cfg.maximum_order (a + cfg.step))
      (perform_order_selection cfg scr net).1.order_data ∧
    List.Chain' (fun a b => a ≤ b)
      (perform_order_selection cfg scr net).1.order_data ∧
    ∀ x ∈ (perform_order_selection cfg scr net).1.order_data,
      x ≤ cfg.maximum_order := by
  have hend := (loopRun_ended cfg scr (cfg.maximum_iterations_number + 1)
    (initState cfg) rfl (by omega) (by omega)).1
  have hmain := c4_loop cfg scr (cfg.maximum_iterations_number + 1)
    (initState cfg) rfl (by simpa [initState] using h) (by simp [initState])
    (by simp [initState]) (by simp [initState]) hend
  exact ⟨hmain.1, List.Chain'.imp (fun a b hab => hab.1) hmain.2.1,
    List.Chain'.imp (fun a b hab => hab.2) hmain.2.1, hmain.2.2⟩

/-- Witness for the amended C4 at the sample inputs. -/
theorem c4_witness :
    (perform_order_selection sampleCfg sampleScr sampleNet).1.order_data.head?
        = some sampleCfg.minimum_order ∧
    List.Chain' (fun a b => b = min sampleCfg.maximum_order (a + sampleCfg.step))
      (perform_order_selection sampleCfg sampleScr sampleNet).1.order_data ∧
    List.Chain' (fun a b => a ≤ b)
      (perform_order_selection sampleCfg sampleScr sampleNet).1.order_data ∧
    ∀ x ∈ (perform_order_selection sampleCfg sampleScr sampleNet).1.order_data,
      x ≤ sampleCfg.maximum_order :=
  c4_order_sequence sampleCfg sampleScr sampleNet (by decide)

/-! ## Finalization invariants (C6) -/

/-- Invariant tying the optimum-tracking variables to the scripted evaluator:
the history length equals the iteration count, and (after the first
iteration) the stored optimum parameters are the script's parameters for the
optimal order, the stored elapsed time is the last measured one, and the
stored optimum generalization performance is the evaluator output of the
iteration that adopted the optimal order. -/
def OptimumInv (scr : Script) (s : LoopState) : Prop :=
  s.order_data.length = s.iterations ∧
  (s.iterations ≠ 0 →
    s.optimum_parameters = scr.getParams s.optimal_order ∧
    s.elapsed_time = scr.elapsedAt (s.iterations - 1) ∧
    ∃ j, j < s.iterations ∧ s.order_data[j]? = some s.optimal_order ∧
      s.optimum_generalization_performance = (scr.calcPerf j s.optimal_order).2)

theorem stepIter_optinv (cfg : Config) (scr : Script) (s : LoopState)
    (h : OptimumInv scr s) : OptimumInv scr (stepIter cfg scr s) := by
  obtain ⟨hlen, hinner⟩ := h
  constructor
  · rw [stepIter_order_data, stepIter_iterations]
    simp [hlen]
  · intro _
    by_cases hA : (s.iterations = 0 ∨
        (s.optimum_generalization_performance >
            (scr.calcPerf s.iterations s.order).2 ∧
         |s.optimum_generalization_performance -
            (scr.calcPerf s.iterations s.order).2| > cfg.tolerance))
    · refine ⟨by simp [stepIter, hA], by simp [stepIter], s.iterations, ?_, ?_, ?_⟩
      · rw [stepIter_iterations]; omega
      · have hopt : (stepIter cfg scr s).optimal_order = s.order := by
          simp [stepIter, hA]
        rw [stepIter_order_data, hopt, ← hlen]
        exact List.getElem?_concat_length _ _
      · have hopt : (stepIter cfg scr s).optimal_order = s.order := by
          simp [stepIter, hA]
        have hperf : (stepIter cfg scr s).optimum_generalization_performance
            = (scr.calcPerf s.iterations s.order).2 := by
          simp [stepIter, hA]
        rw [hopt, hperf]
    · have hiter0 : s.iterations ≠ 0 := fun h0 => hA (Or.inl h0)
      obtain ⟨hparam, _, j, hj, hget, hperf⟩ := hinner hiter0
      have h1 : (stepIter cfg scr s).optimal_order = s.optimal_order := by
        simp [stepIter, hA]
      have h2 : (stepIter cfg scr s).optimum_generalization_performance
          = s.optimum_generalization_performance := by
        simp [stepIter, hA]
      have h3 : (stepIter cfg scr s).optimum_parameters
          = s.optimum_parameters := by
        simp [stepIter, hA]
      refine ⟨by rw [h3, h1]; exact hparam, by simp [stepIter], j, ?_, ?_, ?_⟩
      · rw [stepIter_iterations]; omega
      · rw [stepIter_order_data, h1, List.getElem?_append_left (by omega)]
        exact hget
      · rw [h1, h2]; exact hperf

theorem c6_loop (cfg : Config) (scr : Script) :
    ∀ fuel s, s.ended = false → OptimumInv scr s →
      (loopRun cfg scr fuel s).1.ended = true →
      OptimumInv scr (loopRun cfg scr fuel s).1 ∧
        (loopRun cfg scr fuel s).1.iterations ≠ 0 := by
  intro fuel
  induction fuel with
  | zero =>
      intro s hs _ hE
      rw [show (loopRun cfg scr 0 s).1 = s from rfl, hs] at hE
      exact Bool.noConfusion hE
  | succ fuel ih =>
      intro s hs hInv hE
      by_cases hE' : (stepIter cfg scr s).ended = true
      · have hres : (loopRun cfg scr (fuel + 1) s).1 = stepIter cfg scr s := by
          simp only [loopRun, hE', if_pos]
        rw [hres]
        exact ⟨stepIter_optinv cfg scr s hInv, by rw [stepIter_iterations]; omega⟩
      · have hE'' : (stepIter cfg scr s).ended = false := by
          revert hE'; cases (stepIter cfg scr s).ended <;> simp
        have hres : (loopRun cfg scr (fuel + 1) s).1
            = (loopRun cfg scr fuel (stepIter cfg scr s)).1 := by
          simp [loopRun, hE'']
        rw [hres] at hE ⊢
        exact ih (stepIter cfg scr s) hE'' (stepIter_optinv cfg scr s hInv) hE

/-- C6: finalization installs the optimal order together with the parameter
vector the script recorded for that order into the network, and the results
record carries the optimal order, the optimum generalization performance of
the adopting iteration, a final training performance re-evaluated at the
optimal order (the evaluator call right after the loop's
`iterations_number` calls), the last measured elapsed time, and the
iteration count (one entry of `order_data` per iteration). -/
theorem c6_finalization (cfg : Config) (scr : Script) (net : Network) :
    ∀ r n msgs, perform_order_selection cfg scr net = (r, n, msgs) →
      n.inputs_number = net.inputs_number ∧
      n.outputs_number = net.outputs_number ∧
      n.order = r.optimal_order ∧
      n.parameters = scr.getParams r.optimal_order ∧
      r.iterations_number = r.order_data.length ∧
      r.iterations_number ≠ 0 ∧
      r.final_performance = (scr.calcPerf r.iterations_number r.optimal_order).1 ∧
      r.elapsed_time = scr.elapsedAt (r.iterations_number - 1) ∧
      ∃ j, j < r.iterations_number ∧ r.order_data[j]? = some r.optimal_order ∧
        r.final_generalization_performance = (scr.calcPerf j r.optimal_order).2 := by
  intro r n msgs hEq
  have hr : r = (perform_order_selection cfg scr net).1 := by rw [hEq]
  have hn : n = (perform_order_selection cfg scr net).2.1 := by rw [hEq]
  subst hr; subst hn
  have hend := (loopRun_ended cfg scr (cfg.maximum_iterations_number + 1)
    (initState cfg) rfl (by omega) (by omega)).1
  have hmain := c6_loop cfg scr (cfg.maximum_iterations_number + 1)
    (initState cfg) rfl ⟨rfl, fun h0 => absurd rfl h0⟩ hend
  obtain ⟨⟨hlen, hinner⟩, hiter⟩ := hmain
  obtain ⟨hparam, helap, j, hj, hget, hperf⟩ := hinner hiter
  exact ⟨rfl, rfl, rfl, hparam, hlen.symm, hiter, rfl, helap, j, hj, hget, hperf⟩

/-- Witness for C6 at the sample inputs. -/
theorem c6_witness :
    (perform_order_selection sampleCfg sampleScr sampleNet).2.1.inputs_number
        = sampleNet.inputs_number ∧
    (perform_order_selection sampleCfg sampleScr sampleNet).2.1.outputs_number
        = sampleNet.outputs_number ∧
    (perform_order_selection sampleCfg sampleScr sampleNet).2.1.order
        = (perform_order_selection sampleCfg sampleScr sampleNet).1.optimal_order ∧
    (perform_order_selection sampleCfg sampleScr sampleNet).2.1.parameters
        = sampleScr.getParams
            (perform_order_selection sampleCfg sampleScr sampleNet).1.optimal_order ∧
    (perform_order_selection sampleCfg sampleScr sampleNet).1.iterations_number
        = (perform_order_selection sampleCfg sampleScr sampleNet).1.order_data.length ∧
    (perform_order_selection sampleCfg sampleScr sampleNet).1.iterations_number ≠ 0 ∧
    (perform_order_selection sampleCfg sampleScr sampleNet).1.final_performance
        = (sampleScr.calcPerf
            (perform_order_selection sampleCfg sampleScr sampleNet).1.iterations_number
            (perform_order_selection sampleCfg sampleScr sampleNet).1.optimal_order).1 ∧
    (perform_order_selection sampleCfg sampleScr sampleNet).1.elapsed_time
        = sampleScr.elapsedAt
            ((perform_order_selection sampleCfg sampleScr sampleNet).1.iterations_number - 1) ∧
    ∃ j, j < (perform_order_selection sampleCfg sampleScr sampleNet).1.iterations_number ∧
      (perform_order_selection sampleCfg sampleScr sampleNet).1.order_data[j]?
        = some (perform_order_selection sampleCfg sampleScr sampleNet).1.optimal_order ∧
      (perform_order_selection sampleCfg sampleScr sampleNet).1.final_generalization_performance
        = (sampleScr.calcPerf j
            (perform_order_selection sampleCfg sampleScr sampleNet).1.optimal_order).2 :=
  c6_finalization sampleCfg sampleScr sampleNet _ _ _ rfl

/-! ## Display independence (C9) -/

theorem stepIter_display (cfg : Config) (scr : Script) (s : LoopState) (d : Bool) :
    stepIter { cfg with display := d } scr s = stepIter cfg scr s := rfl

theorem loopRun_display_fst (cfg : Config) (scr : Script) (d : Bool) :
    ∀ fuel s, (loopRun { cfg with display := d } scr fuel s).1
      = (loopRun cfg scr fuel s).1 := by
  intro fuel
  induction fuel with
  | zero => intro s; rfl
  | succ fuel ih =>
      intro s
      simp only [loopRun, stepIter_display]
      by_cases hE : (stepIter cfg scr s).ended = true
      · simp [hE]
      · have hE' : (stepIter cfg scr s).ended = false := by
          revert hE; cases (stepIter cfg scr s).ended <;> simp
        simp [hE', ih]

/-- C9: two runs differing only in the `display` flag return the same results
record and install the same structure and parameters into the network; only
the printed progress trace differs. -/
theorem c9_display_independence (cfg : Config) (scr : Script) (net : Network)
    (d₁ d₂ : Bool) :
    ∀ r₁ n₁ t₁ r₂ n₂ t₂,
      perform_order_selection { cfg with display := d₁ } scr net = (r₁, n₁, t₁) →
      perform_order_selection { cfg with display := d₂ } scr net = (r₂, n₂, t₂) →
      r₁ = r₂ ∧ n₁ = n₂ := by
  have key : ∀ d : Bool,
      (perform_order_selection { cfg with display := d } scr net).1
          = (perform_order_selection cfg scr net).1 ∧
      (perform_order_selection { cfg with display := d } scr net).2.1
          = (perform_order_selection cfg scr net).2.1 := by
    intro d
    have h1 : initState { cfg with display := d } = initState cfg := rfl
    have h2 : ({ cfg with display := d } : Config).maximum_iterations_number
        = cfg.maximum_iterations_number := rfl
    have h3 : ({ cfg with display := d } : Config).reserve_minimal_parameters
        = cfg.reserve_minimal_parameters := rfl
    constructor <;>
      simp only [perform_order_selection, h1, h2, h3, loopRun_display_fst]
  intro r₁ n₁ t₁ r₂ n₂ t₂ hEq₁ hEq₂
  have e₁ : r₁ = (perform_order_selection { cfg with display := d₁ } scr net).1 := by
    rw [hEq₁]
  have e₂ : r₂ = (perform_order_selection { cfg with display := d₂ } scr net).1 := by
    rw [hEq₂]
  have f₁ : n₁ = (perform_order_selection { cfg with display := d₁ } scr net).2.1 := by
    rw [hEq₁]
  have f₂ : n₂ = (perform_order_selection { cfg with display := d₂ } scr net).2.1 := by
    rw [hEq₂]
  constructor
  · rw [e₁, e₂, (key d₁).1, (key d₂).1]
  · rw [f₁, f₂, (key d₁).2, (key d₂).2]

/-- Witness for C9 at the sample inputs with `display` on versus off. -/
theorem c9_witness :
    (perform_order_selection { sampleCfg with display := true } sampleScr sampleNet).1
        = (perform_order_selection { sampleCfg with display := false } sampleScr sampleNet).1 ∧
    (perform_order_selection { sampleCfg with display := true } sampleScr sampleNet).2.1
        = (perform_order_selection { sampleCfg with display := false } sampleScr sampleNet).2.1 :=
  c9_display_independence sampleCfg sampleScr sampleNet true false _ _ _ _ _ _ rfl rfl

/-! ## Serialization lemmas -/

theorem sizeSub_eq {a b : Nat} (hba : b ≤ a) (ha : a < 2 ^ 64) :
    sizeSub a b = a - b := by
  unfold sizeSub
  have h : a + 2 ^ 64 - b = (a - b) + 2 ^ 64 := by omega
  rw [h, Nat.add_mod_right]
  exact Nat.mod_eq_of_lt (by omega)

theorem boolText_roundtrip (b : Bool) : (decide (boolText b ≠ "0")) = b := by
  cases b <;> decide

theorem boolText_eq_zero (b : Bool) : (decide (boolText b = "0")) = !b := by
  cases b <;> decide

theorem applyMinimumOrder_eta (doc : IODocument) (c : Config) :
    applyMinimumOrder doc c
      = { c with minimum_order := doc.minimumOrder.getD c.minimum_order } := by
  cases hv : doc.minimumOrder <;> simp [applyMinimumOrder, hv]

theorem applyMaximumOrder_eta (doc : IODocument) (c : Config) :
    applyMaximumOrder doc c
      = { c with maximum_order := doc.maximumOrder.getD c.maximum_order } := by
  cases hv : doc.maximumOrder <;> simp [applyMaximumOrder, hv]

theorem applyTrialsNumber_eta (doc : IODocument) (c : Config) :
    applyTrialsNumber doc c
      = { c with trials_number := doc.trialsNumber.getD c.trials_number } := by
  cases hv : doc.trialsNumber <;> simp [applyTrialsNumber, set_trials_number, hv]

theorem applyPerformanceCalculationMethod_eta (doc : IODocument) (c : Config) :
    applyPerformanceCalculationMethod doc c
      = { c with performance_calculation_method :=
            match doc.performanceCalculationMethod with
            | none => c.performance_calculation_method
            | some txt =>
                if txt = "Minimum" then PerformanceCalculationMethod.Minimum
                else if txt = "Maximum" then PerformanceCalculationMethod.Maximum
                else if txt = "Mean" then PerformanceCalculationMethod.Mean
                else c.performance_calculation_method } := by
  cases hv : doc.performanceCalculationMethod with
  | none => simp [applyPerformanceCalculationMethod, hv]
  | some txt =>
      simp only [applyPerformanceCalculationMethod, hv,
        set_performance_calculation_method]
      split_ifs <;> rfl

theorem applyStep_eta (doc : IODocument) (c : Config) :
    applyStep doc c
      = { c with step :=
            match doc.stepElement with
            | none => c.step
            | some v =>
                if v = 0 then c.step
                else if v > sizeSub c.maximum_order c.minimum_order then c.step
                else v } := by
  cases hv : doc.stepElement with
  | none => simp [applyStep, hv]
  | some v =>
      simp only [applyStep, hv, set_step]
      split_ifs <;> rfl

theorem applyReserveParametersData_eta (doc : IODocument) (c : Config) :
    applyReserveParametersData doc c
      = { c with reserve_parameters_data :=
            match doc.reserveParametersData with
            | none => c.reserve_parameters_data
            | some txt => decide (txt ≠ "0") } := by
  cases hv : doc.reserveParametersData <;>
    simp [applyReserveParametersData, set_reserve_parameters_data, hv]

theorem applyReservePerformanceData_eta (doc : IODocument) (c : Config) :
    applyReservePerformanceData doc c
      = { c with reserve_performance_data :=
            match doc.reservePerformanceData with
            | none => c.reserve_performance_data
            | some txt => decide (txt ≠ "0") } := by
  cases hv : doc.reservePerformanceData <;>
    simp [applyReservePerformanceData, set_reserve_performance_data, hv]

theorem applyReserveGeneralizationPerformanceData_eta (doc : IODocument) (c : Config) :
    applyReserveGeneralizationPerformanceData doc c
      = { c with reserve_generalization_performance_data :=
            match doc.reserveGeneralizationPerformanceData with
            | none => c.reserve_generalization_performance_data
            | some txt => decide (txt ≠ "0") } := by
  cases hv : doc.reserveGeneralizationPerformanceData <;>
    simp [applyReserveGeneralizationPerformanceData,
      set_reserve_generalization_performance_data, hv]

theorem applyReserveMinimalParameters_eta (doc : IODocument) (c : Config) :
    applyReserveMinimalParameters doc c
      = { c with reserve_minimal_parameters :=
            match doc.reserveMinimalParameters with
            | none => c.reserve_minimal_parameters
            | some txt => decide (txt ≠ "0") } := by
  cases hv : doc.reserveMinimalParameters <;>
    simp [applyReserveMinimalParameters, set_reserve_minimal_parameters, hv]

theorem applyDisplay_eta (doc : IODocument) (c : Config) :
    applyDisplay doc c
      = { c with display :=
            match doc.displayElement with
            | none => c.display
            | some txt => decide (txt ≠ "0") } := by
  cases hv : doc.displayElement <;> simp [applyDisplay, set_display, hv]

theorem applyGeneralizationPerformanceGoal_eta (doc : IODocument) (c : Config) :
    applyGeneralizationPerformanceGoal doc c
      = { c with generalization_performance_goal :=
            (doc.generalizationPerformanceGoal.getD
              c.generalization_performance_goal) } := by
  cases hv : doc.generalizationPerformanceGoal <;>
    simp [applyGeneralizationPerformanceGoal, set_generalization_performance_goal, hv]

theorem applyMaximumIterationsNumber_eta (doc : IODocument) (c : Config) :
    applyMaximumIterationsNumber doc c
      = { c with maximum_iterations_number :=
            (doc.maximumIterationsNumber.getD c.maximum_iterations_number) } := by
  cases hv : doc.maximumIterationsNumber <;>
    simp [applyMaximumIterationsNumber, set_maximum_iterations_number, hv]

theorem applyMaximumTime_eta (doc : IODocument) (c : Config) :
    applyMaximumTime doc c
      = { c with maximum_time :=
            match doc.maximumTime with
            | none => c.maximum_time
            | some q => ((ratTrunc q : ℤ) : ℚ) } := by
  cases hv : doc.maximumTime <;> simp [applyMaximumTime, set_maximum_time, hv]

theorem applyTolerance_eta (doc : IODocument) (c : Config) :
    applyTolerance doc c
      = { c with tolerance := doc.tolerance.getD c.tolerance } := by
  cases hv : doc.tolerance <;> simp [applyTolerance, set_tolerance, hv]

theorem applyMaximumGeneralizationFailures_eta (doc : IODocument) (c : Config) :
    applyMaximumGeneralizationFailures doc c
      = { c with maximum_generalization_failures :=
            match doc.maximumGeneralizationFailures with
            | none => c.maximum_generalization_failures
            | some v =>
                if v = 0 then c.maximum_generalization_failures else v } := by
  cases hv : doc.maximumGeneralizationFailures with
  | none => simp [applyMaximumGeneralizationFailures, hv]
  | some v =>
      simp only [applyMaximumGeneralizationFailures, hv,
        set_maximum_generalization_failures]
      split_ifs <;> rfl

theorem methodParse_write (c : Config) (x : PerformanceCalculationMethod) :
    (if write_performance_calculation_method c = "Minimum" then
        PerformanceCalculationMethod.Minimum
      else if write_performance_calculation_method c = "Maximum" then
        PerformanceCalculationMethod.Maximum
      else if write_performance_calculation_method c = "Mean" then
        PerformanceCalculationMethod.Mean
      else x) = c.performance_calculation_method := by
  cases hm : c.performance_calculation_method <;>
    simp only [write_performance_calculation_method, hm] <;> rfl

/-! ## Claims about serialization and loading (C5, C7, C8, C10) -/

/-- A document with an `IncrementalOrder` root and no child elements. -/
def emptyDoc : IODocument :=
  { root := true
    minimumOrder := none
    maximumOrder := none
    trialsNumber := none
    performanceCalculationMethod := none
    stepElement := none
    reserveParametersData := none
    reservePerformanceData := none
    reserveGeneralizationPerformanceData := none
    reserveMinimalParameters := none
    displayElement := none
    generalizationPerformanceGoal := none
    maximumIterationsNumber := none
    maximumTime := none
    tolerance := none
    maximumGeneralizationFailures := none }

/-- C7: a document without the `IncrementalOrder` root makes `from_XML` throw
(functionally: return an error, with no state change), and with the root
present `from_XML` succeeds and every configuration field whose element is
missing keeps the value it had before the call, while the remaining elements
are still processed. -/
theorem c7_from_xml_missing_fields (doc : IODocument) (c : Config) :
    (doc.root = false → ∃ e, from_XML doc c = Except.error e) ∧
    (doc.root = true →
      from_XML doc c = Except.ok (fromXMLcore doc c) ∧
      (doc.minimumOrder = none →
        (fromXMLcore doc c).minimum_order = c.minimum_order) ∧
      (doc.maximumOrder = none →
        (fromXMLcore doc c).maximum_order = c.maximum_order) ∧
      (doc.trialsNumber = none →
        (fromXMLcore doc c).trials_number = c.trials_number) ∧
      (doc.performanceCalculationMethod = none →
        (fromXMLcore doc c).performance_calculation_method
          = c.performance_calculation_method) ∧
      (doc.stepElement = none → (fromXMLcore doc c).step = c.step) ∧
      (doc.reserveParametersData = none →
        (fromXMLcore doc c).reserve_parameters_data
          = c.reserve_parameters_data) ∧
      (doc.reservePerformanceData = none →
        (fromXMLcore doc c).reserve_performance_data
          = c.reserve_performance_data) ∧
      (doc.reserveGeneralizationPerformanceData = none →
        (fromXMLcore doc c).reserve_generalization_performance_data
          = c.reserve_generalization_performance_data) ∧
      (doc.reserveMinimalParameters = none →
        (fromXMLcore doc c).reserve_minimal_parameters
          = c.reserve_minimal_parameters) ∧
      (doc.displayElement = none → (fromXMLcore doc c).display = c.display) ∧
      (doc.generalizationPerformanceGoal = none →
        (fromXMLcore doc c).generalization_performance_goal
          = c.generalization_performance_goal) ∧
      (doc.maximumIterationsNumber = none →
        (fromXMLcore doc c).maximum_iterations_number
          = c.maximum_iterations_number) ∧
      (doc.maximumTime = none → (fromXMLcore doc c).maximum_time = c.maximum_time) ∧
      (doc.tolerance = none → (fromXMLcore doc c).tolerance = c.tolerance) ∧
      (doc.maximumGeneralizationFailures = none →
        (fromXMLcore doc c).maximum_generalization_failures
          = c.maximum_generalization_failures)) := by
  constructor
  · intro hroot
    exact ⟨"IncrementalOrder element is NULL.", by simp [from_XML, hroot]⟩
  · intro hroot
    refine ⟨by simp [from_XML, hroot], ?_, ?_, ?_, ?_, ?_, ?_, ?_, ?_, ?_, ?_,
      ?_, ?_, ?_, ?_, ?_⟩ <;>
      intro hmiss <;>
      simp only [fromXMLcore, applyMinimumOrder_eta, applyMaximumOrder_eta,
        applyTrialsNumber_eta, applyPerformanceCalculationMethod_eta, applyStep_eta,
        applyReserveParametersData_eta, applyReservePerformanceData_eta,
        applyReserveGeneralizationPerformanceData_eta,
        applyReserveMinimalParameters_eta, applyDisplay_eta,
        applyGeneralizationPerformanceGoal_eta, applyMaximumIterationsNumber_eta,
        applyMaximumTime_eta, applyTolerance_eta,
        applyMaximumGeneralizationFailures_eta] <;>
      simp [hmiss]

/-- Witness for C7: loading the element-free document into the sample
configuration succeeds and keeps two representative fields. -/
theorem c7_witness :
    from_XML emptyDoc sampleCfg = Except.ok (fromXMLcore emptyDoc sampleCfg) ∧
    (fromXMLcore emptyDoc sampleCfg).minimum_order = sampleCfg.minimum_order ∧
    (fromXMLcore emptyDoc sampleCfg).step = sampleCfg.step :=
  ⟨((c7_from_xml_missing_fields emptyDoc sampleCfg).2 rfl).1,
   ((c7_from_xml_missing_fields emptyDoc sampleCfg).2 rfl).2.1 rfl,
   ((c7_from_xml_missing_fields emptyDoc sampleCfg).2 rfl).2.2.2.2.2.1 rfl⟩

/-- C8: `set_step` rejects a zero step and a step exceeding
`maximum_order - minimum_order` (computed in `size_t`; the hypotheses pin the
ordinary-subtraction reading), leaving the object unchanged, and stores a
valid step exactly; `set_maximum_generalization_failures` rejects zero and
stores any non-zero threshold exactly. -/
theorem c8_setter_guards (c : Config) (new_step n : Nat)
    (h1 : c.minimum_order ≤ c.maximum_order) (h2 : c.maximum_order < 2 ^ 64) :
    ((new_step = 0 ∨ c.maximum_order - c.minimum_order < new_step) →
      (set_step new_step c).toOption = none) ∧
    (new_step ≠ 0 → new_step ≤ c.maximum_order - c.minimum_order →
      set_step new_step c = Except.ok { c with step := new_step }) ∧
    (n = 0 → (set_maximum_generalization_failures n c).toOption = none) ∧
    (n ≠ 0 → set_maximum_generalization_failures n c
      = Except.ok { c with maximum_generalization_failures := n }) := by
  have hs := sizeSub_eq h1 h2
  refine ⟨?_, ?_, ?_, ?_⟩
  · rintro (h | h)
    · simp [set_step, h, Except.toOption]
    · by_cases h0 : new_step = 0
      · simp [set_step, h0, Except.toOption]
      · simp [set_step, h0, hs, h, Except.toOption]
  · intro h0 hle
    simp [set_step, h0, hs, not_lt.mpr hle]
  · intro h
    simp [set_maximum_generalization_failures, h, Except.toOption]
  · intro h
    simp [set_maximum_generalization_failures, h]

/-- Witness for C8 at the sample configuration: an overlong step and a zero
failure threshold are rejected; the instantiated statement also carries the
acceptance implications. -/
theorem c8_witness :
    ((7 = 0 ∨ sampleCfg.maximum_order - sampleCfg.minimum_order < 7) →
      (set_step 7 sampleCfg).toOption = none) ∧
    (7 ≠ 0 → 7 ≤ sampleCfg.maximum_order - sampleCfg.minimum_order →
      set_step 7 sampleCfg = Except.ok { sampleCfg with step := 7 }) ∧
    (0 = 0 → (set_maximum_generalization_failures 0 sampleCfg).toOption = none) ∧
    (0 ≠ 0 → set_maximum_generalization_failures 0 sampleCfg
      = Except.ok { sampleCfg with maximum_generalization_failures := 0 }) :=
  c8_setter_guards sampleCfg 7 0 (by decide) (by decide)

/-- The configurations every validated setter accepts: ordered bounds within
`size_t` range, a step that `set_step` accepts for those bounds, and a
non-zero failure threshold. -/
def LegalConfig (c : Config) : Prop :=
  c.minimum_order ≤ c.maximum_order ∧ c.maximum_order < 2 ^ 64 ∧
  c.step ≠ 0 ∧ c.step ≤ c.maximum_order - c.minimum_order ∧
  c.maximum_generalization_failures ≠ 0

/-- One half, built without `Rat` division so that kernel evaluation works. -/
def halfQ : ℚ := ⟨1, 2, by omega, by simpa using Nat.coprime_one_left 2⟩

/-- A legal configuration whose `maximum_time` is the non-integral `1/2`. -/
def c5cexCfg : Config := { sampleCfg with maximum_time := halfQ }

/-- C5 counterexample: serializing a legal configuration whose
`maximum_time` is `0.5` and deserializing does not reproduce it —
`from_XML` reads the `MaximumTime` element with `atoi`, so the field comes
back as `0`. -/
theorem c5_counterexample :
    (from_XML (to_XML c5cexCfg) c5cexCfg).toOption ≠ some c5cexCfg := by
  decide

/-- C5 (amended): serialize-then-deserialize reproduces every field exactly
except `maximum_time`, which comes back truncated toward zero (`atoi` of its
decimal text); in particular the round-trip is the identity whenever
`maximum_time` is an integer. -/
theorem c5_roundtrip (cfg c₀ : Config) (h : LegalConfig cfg) :
    from_XML (to_XML cfg) c₀
      = Except.ok { cfg with
          maximum_time := ((ratTrunc cfg.maximum_time : ℤ) : ℚ) } := by
  obtain ⟨hb1, hb2, hstep0, hsteple, hmgf⟩ := h
  have hs := sizeSub_eq hb1 hb2
  simp [from_XML, to_XML, fromXMLcore,
    applyMinimumOrder_eta, applyMaximumOrder_eta, applyTrialsNumber_eta,
    applyPerformanceCalculationMethod_eta, applyStep_eta,
    applyReserveParametersData_eta, applyReservePerformanceData_eta,
    applyReserveGeneralizationPerformanceData_eta,
    applyReserveMinimalParameters_eta, applyDisplay_eta,
    applyGeneralizationPerformanceGoal_eta, applyMaximumIterationsNumber_eta,
    applyMaximumTime_eta, applyTolerance_eta,
    applyMaximumGeneralizationFailures_eta,
    methodParse_write, boolText_roundtrip, boolText_eq_zero, hs, hstep0, hmgf,
    not_lt.mpr hsteple]

/-- Witness for the amended C5: round-tripping the sample configuration
(integral `maximum_time`) through an unrelated starting object. -/
theorem c5_witness :
    from_XML (to_XML sampleCfg) c4cexCfg
      = Except.ok { sampleCfg with
          maximum_time := ((ratTrunc sampleCfg.maximum_time : ℤ) : ℚ) } :=
  c5_roundtrip sampleCfg c4cexCfg
    ⟨by decide, by decide, by decide, by decide, by decide⟩

/-- The object state carried by a `load` outcome: the thrown-with state on
error, the final state on success. -/
def loadState (r : Except Config Config) : Config :=
  match r with
  | Except.error c => c
  | Except.ok c => c

/-- A second pre-call state differing from `sampleCfg` only in
`minimum_order`. -/
def c10B : Config := { sampleCfg with minimum_order := 4 }

/-- C10 counterexample: a failed `load` does not leave the object at "the
default values" — two different pre-call states yield two different
post-failure states (the base-class fields keep their pre-call values;
`IncrementalOrder::set_default` resets only `step` and
`maximum_generalization_failures`). -/
theorem c10_counterexample :
    (load none sampleCfg).toOption = none ∧
    loadState (load none sampleCfg) ≠ loadState (load none c10B) := by
  decide

/-- C10 (amended): `load` resets exactly `step` (to 1) and
`maximum_generalization_failures` (to 3) before reading; an unloadable file
or a missing root leaves the object at its pre-call state except for those
two fields; after a successful load, a field absent from the document holds
its pre-call value, except `step` and `maximum_generalization_failures`,
which hold their defaults. -/
theorem c10_load_partial_reset (c : Config) (doc : IODocument) :
    load none c
      = Except.error { c with step := 1, maximum_generalization_failures := 3 } ∧
    (doc.root = false → load (some doc) c
      = Except.error { c with step := 1, maximum_generalization_failures := 3 }) ∧
    (doc.root = true →
      load (some doc) c = Except.ok (fromXMLcore doc (set_default c)) ∧
      (doc.stepElement = none → (fromXMLcore doc (set_default c)).step = 1) ∧
      (doc.maximumGeneralizationFailures = none →
        (fromXMLcore doc (set_default c)).maximum_generalization_failures = 3) ∧
      (doc.minimumOrder = none →
        (fromXMLcore doc (set_default c)).minimum_order = c.minimum_order) ∧
      (doc.maximumOrder = none →
        (fromXMLcore doc (set_default c)).maximum_order = c.maximum_order) ∧
      (doc.trialsNumber = none →
        (fromXMLcore doc (set_default c)).trials_number = c.trials_number) ∧
      (doc.performanceCalculationMethod = none →
        (fromXMLcore doc (set_default c)).performance_calculation_method
          = c.performance_calculation_method) ∧
      (doc.reserveParametersData = none →
        (fromXMLcore doc (set_default c)).reserve_parameters_data
          = c.reserve_parameters_data) ∧
      (doc.reservePerformanceData = none →
        (fromXMLcore doc (set_default c)).reserve_performance_data
          = c.reserve_performance_data) ∧
      (doc.reserveGeneralizationPerformanceData = none →
        (fromXMLcore doc (set_default c)).reserve_generalization_performance_data
          = c.reserve_generalization_performance_data) ∧
      (doc.reserveMinimalParameters = none →
        (fromXMLcore doc (set_default c)).reserve_minimal_parameters
          = c.reserve_minimal_parameters) ∧
      (doc.displayElement = none →
        (fromXMLcore doc (set_default c)).display = c.display) ∧
      (doc.generalizationPerformanceGoal = none →
        (fromXMLcore doc (set_default c)).generalization_performance_goal
          = c.generalization_performance_goal) ∧
      (doc.maximumIterationsNumber = none →
        (fromXMLcore doc (set_default c)).maximum_iterations_number
          = c.maximum_iterations_number) ∧
      (doc.maximumTime = none →
        (fromXMLcore doc (set_default c)).maximum_time = c.maximum_time) ∧
      (doc.tolerance = none →
        (fromXMLcore doc (set_default c)).tolerance = c.tolerance)) := by
  refine ⟨by simp [load, set_default], fun hroot => ?_, fun hroot => ?_⟩
  · simp [load, from_XML, hroot, set_default]
  · refine ⟨by simp [load, from_XML, hroot], ?_, ?_, ?_, ?_, ?_, ?_, ?_, ?_, ?_,
      ?_, ?_, ?_, ?_, ?_, ?_⟩ <;>
      intro hmiss <;>
      simp only [fromXMLcore, applyMinimumOrder_eta, applyMaximumOrder_eta,
        applyTrialsNumber_eta, applyPerformanceCalculationMethod_eta, applyStep_eta,
        applyReserveParametersData_eta, applyReservePerformanceData_eta,
        applyReserveGeneralizationPerformanceData_eta,
        applyReserveMinimalParameters_eta, applyDisplay_eta,
        applyGeneralizationPerformanceGoal_eta, applyMaximumIterationsNumber_eta,
        applyMaximumTime_eta, applyTolerance_eta,
        applyMaximumGeneralizationFailures_eta] <;>
      simp [hmiss, set_default]

/-- Witness for the amended C10 at the sample configuration and the
element-free document. -/
theorem c10_witness :
    load none sampleCfg = Except.error
      { sampleCfg with step := 1, maximum_generalization_failures := 3 } ∧
    load (some emptyDoc) sampleCfg
      = Except.ok (fromXMLcore emptyDoc (set_default sampleCfg)) ∧
    (fromXMLcore emptyDoc (set_default sampleCfg)).step = 1 ∧
    (fromXMLcore emptyDoc (set_default sampleCfg)).minimum_order
      = sampleCfg.minimum_order :=
  ⟨(c10_load_partial_reset sampleCfg emptyDoc).1,
   ((c10_load_partial_reset sampleCfg emptyDoc).2.2 rfl).1,
   ((c10_load_partial_reset sampleCfg emptyDoc).2.2 rfl).2.1 rfl,
   ((c10_load_partial_reset sampleCfg emptyDoc).2.2 rfl).2.2.2.1 rfl⟩

end IncrementalOrder
